import Mathlib

/-!
# Ai-Agent-Demo: the `/suggest` pipeline of `main.go`

A shallow embedding of `suggestHandler`, `getLatLon`, `fetchWeather` and
`callOllama`.  Go values returned as `(value, error)` pairs are kept as pairs
with an `Option String` for the error (`none` is Go's `nil`).

Two kinds of code outside `main.go` take part in every run:

* the Go standard library (`encoding/json`, `strconv`, `fmt`): the handler is
  written against a record `GoLib` of the library entry points it calls, and
  `goLib` further down is an executable model of them that follows the
  package documentation;
* the network: a `World` answers each outbound request, and every request
  made is appended to a log that is threaded through the functions.
-/

namespace AiAgentDemo

/-! ## Data model (`main.go`, lines 14-38) -/

/-- A Go `float64`, kept as its IEEE 754 binary64 bit pattern. -/
structure Float64 where
  bits : Nat
deriving DecidableEq, Repr

/-- The Go constant `0` at type `float64`. -/
def Float64.zero : Float64 := ⟨0⟩

/-- The request payload `UserInput`; `Rating` is a Go `int`. -/
structure UserInput where
  Height : String
  Location : String
  Occasion : String
  Rating : Int
deriving DecidableEq, Repr

/-- One record of the generation stream. -/
structure streamChunk where
  Response : String
  Done : Bool
deriving DecidableEq, Repr

/-- One element of `GeoResponse`. -/
structure GeoEntry where
  Lat : String
  Lon : String
deriving DecidableEq, Repr

/-- The geocoder's answer: `[]struct{Lat, Lon string}`. -/
abbrev GeoResponse := List GeoEntry

/-- The field `current_weather` of `OpenMeteoResponse`. -/
structure CurrentWeather where
  Temperature : Float64
  Windspeed : Float64
deriving DecidableEq, Repr

/-- The weather provider's answer. -/
structure OpenMeteoResponse where
  CurrentWeather : CurrentWeather
deriving DecidableEq, Repr

/-! ## The standard library and the network, as seen by the handler -/

/-- The standard-library calls made by `main.go`.  A failing call gives
`Except.error` with the error's text. -/
structure GoLib where
  /-- The call `json.NewDecoder(r.Body).Decode(&input)` with `input : UserInput`. -/
  decodeUserInput : String → Except String UserInput
  /-- The call `json.NewDecoder(resp.Body).Decode(&geo)` with `geo : GeoResponse`. -/
  decodeGeoResponse : String → Except String GeoResponse
  /-- The call `json.NewDecoder(resp.Body).Decode(&om)` with `om : OpenMeteoResponse`. -/
  decodeOpenMeteo : String → Except String OpenMeteoResponse
  /-- The call `json.Unmarshal(line, &chunk)` with `chunk : streamChunk`. -/
  unmarshalStreamChunk : String → Except String streamChunk
  /-- The call `strconv.ParseFloat(s, 64)`: the value and the error, both returned. -/
  parseFloat : String → Float64 × Option String
  /-- The verb `%.Nf` of `fmt.Sprintf` applied to a `float64`. -/
  formatFixed : Nat → Float64 → String

/-- The constant `bufio.MaxScanTokenSize`: the size in bytes that the buffer
of a scanner made by `bufio.NewScanner` may grow to. -/
def MaxScanTokenSize : Nat := 64 * 1024

/-- The text of the error `bufio.ErrTooLong`. -/
def ErrTooLong : String := "bufio.Scanner: token too long"

/-- One line of a response body as `bufio.ScanLines` delimits it: the line
without its end-of-line marker, which is the token `Scan` delivers; the
marker (a line feed, or a carriage return and a line feed; empty, or a
carriage return, for a last line that the body leaves open); and what
`scanner.Err()` reports when asked right after the line is delivered. -/
structure Scanned where
  line : String
  ending : String
  errNow : Option String
deriving DecidableEq, Repr

/-- A response body read through `bufio.NewScanner`: its lines in order, what
`Err()` reports once `Scan` has returned false at the end of the body (`none`
on a clean end of stream), and whether the reader reports the end of the
body together with its last bytes rather than by a read of its own. -/
structure LineStream where
  scans : List Scanned
  errEnd : Option String
  eofWithData : Bool
deriving DecidableEq, Repr

/-- Whether the scanner cannot deliver the line: `Scan` finds a token only
within its buffer, which holds at most `MaxScanTokenSize` bytes, so a line
that with its marker is longer than that is never found.  An open last line
of exactly that size fills the buffer: it is found only when the end of the
body is already known, that is when the reader reported it with the last
bytes.  In both cases `Scan` returns false and `Err()` is `ErrTooLong`. -/
def Scanned.tooLong (eofWithData : Bool) (sc : Scanned) : Bool :=
  let size := sc.line.utf8ByteSize + sc.ending.utf8ByteSize
  let terminated := sc.ending = "\n" ∨ sc.ending = "\r\n"
  decide (size > MaxScanTokenSize ∨
    (size = MaxScanTokenSize ∧ ¬ terminated ∧ eofWithData = false))

/-- An outbound request.  The body of the `POST` is the map handed to
`json.Marshal`, kept as its key/value pairs. -/
inductive Call where
  | get (url : String)
  | post (url : String) (contentType : String) (payload : List (String × String))
deriving DecidableEq, Repr

/-- The outside services: the answer of `http.Get` (the response body, or a
transport error) and of `http.Post`. -/
structure World where
  get : String → Except String String
  post : String → String → List (String × String) → Except String LineStream

/-- What is written to the `http.ResponseWriter`: the text handed to
`http.Error`, or the map handed to `json.NewEncoder(w).Encode`. -/
inductive Payload where
  | text (msg : String)
  | json (fields : List (String × String))
deriving DecidableEq, Repr

/-- The HTTP response of the handler. -/
structure Response where
  status : Nat
  contentType : String
  payload : Payload
deriving DecidableEq, Repr

/-- The constant `http.StatusBadRequest`. -/
def StatusBadRequest : Nat := 400

/-- The constant `http.StatusInternalServerError`. -/
def StatusInternalServerError : Nat := 500

/-- The constant `http.StatusOK`, the status of a response written without `WriteHeader`. -/
def StatusOK : Nat := 200

/-- The call `http.Error(w, msg, code)`. -/
def httpError (msg : String) (code : Nat) : Response :=
  ⟨code, "text/plain; charset=utf-8", Payload.text msg⟩

/-- The call `http.Get(url)`: the request is logged and the world answers. -/
def httpGet (w : World) (url : String) (log : List Call) :
    Except String String × List Call :=
  (w.get url, log ++ [Call.get url])

/-- The call `http.Post(url, contentType, body)`. -/
def httpPost (w : World) (url contentType : String) (payload : List (String × String))
    (log : List Call) : Except String LineStream × List Call :=
  (w.post url contentType payload, log ++ [Call.post url contentType payload])

/-! ## `getLatLon` (lines 122-142) -/

/-- The URL built at line 123. -/
def getLatLonURL (city : String) : String :=
  "https://nominatim.openstreetmap.org/search?q=" ++ city ++ "&format=json&limit=1"

/-- The call `getLatLon(city)`. -/
def getLatLon (lib : GoLib) (w : World) (city : String) (log : List Call) :
    (Float64 × Float64 × Option String) × List Call :=
  let url := getLatLonURL city
  match httpGet w url log with
  | (Except.error err, log) => ((Float64.zero, Float64.zero, some err), log)
  | (Except.ok body, log) =>
    match lib.decodeGeoResponse body with
    | Except.error err => ((Float64.zero, Float64.zero, some err), log)
    | Except.ok geo =>
      match geo with
      | [] => ((Float64.zero, Float64.zero, some ("no results for city " ++ city)), log)
      | g :: _ =>
        let lat := (lib.parseFloat g.Lat).1
        let lon := (lib.parseFloat g.Lon).1
        ((lat, lon, none), log)

/-! ## `fetchWeather` (lines 145-162) -/

/-- The URL built at line 146. -/
def fetchWeatherURL (lib : GoLib) (lat lon : Float64) : String :=
  "https://api.open-meteo.com/v1/forecast?latitude=" ++ lib.formatFixed 6 lat
    ++ "&longitude=" ++ lib.formatFixed 6 lon ++ "&current_weather=true"

/-- The call `fetchWeather(lat, lon)`. -/
def fetchWeather (lib : GoLib) (w : World) (lat lon : Float64) (log : List Call) :
    (Float64 × String × Option String) × List Call :=
  let url := fetchWeatherURL lib lat lon
  match httpGet w url log with
  | (Except.error err, log) => ((Float64.zero, "", some err), log)
  | (Except.ok body, log) =>
    match lib.decodeOpenMeteo body with
    | Except.error err => ((Float64.zero, "", some err), log)
    | Except.ok om =>
      let temp := om.CurrentWeather.Temperature
      let condition := "clear"
      ((temp, condition, none), log)

/-! ## `callOllama` (lines 165-194) -/

/-- The loop of lines 178-188 together with the `scanner.Err()` that follows
it: `full` is `fullResponse` so far, the list holds the lines of the body
not yet read.  `scanner.Scan()` returns false at the end of the body and at
a line too long for the scanner; otherwise it delivers the next line.  The
result is `fullResponse` and the value of `scanner.Err()` when the loop is
left. -/
def callOllamaLoop (lib : GoLib) (errEnd : Option String) (eofWithData : Bool) :
    List Scanned → String → String × Option String
  | [], full => (full, errEnd)
  | sc :: rest, full =>
    if sc.tooLong eofWithData then (full, some ErrTooLong)
    else
      match lib.unmarshalStreamChunk sc.line with
      | Except.error _ => callOllamaLoop lib errEnd eofWithData rest full
      | Except.ok chunk =>
        let full := full ++ chunk.Response
        if chunk.Done then (full, sc.errNow)
        else callOllamaLoop lib errEnd eofWithData rest full

/-- The call `callOllama(prompt)`. -/
def callOllama (lib : GoLib) (w : World) (prompt : String) (log : List Call) :
    (String × Option String) × List Call :=
  let reqBody := [("prompt", prompt), ("model", "llama3.2")]
  match httpPost w "http://localhost:11434/api/generate" "application/json" reqBody log with
  | (Except.error err, log) => (("", some err), log)
  | (Except.ok stream, log) =>
    match callOllamaLoop lib stream.errEnd stream.eofWithData stream.scans "" with
    | (fullResponse, some err) => ((fullResponse, some err), log)
    | (fullResponse, none) => ((fullResponse, none), log)

/-! ## `suggestHandler` (lines 68-119) -/

/-- The first part of the prompt, the `fmt.Sprintf` of lines 99-102. -/
def promptBase (lib : GoLib) (height occasion condition : String) (temp : Float64) : String :=
  "Suggest clothing for a person with height " ++ height ++ " attending a " ++ occasion
    ++ " in " ++ condition ++ " weather with temperature " ++ lib.formatFixed 1 temp ++ "°C."

/-- The text appended at line 104. -/
def retrySuffix : String :=
  " The previous suggestion wasn't good enough. Make a better one."

/-- The prompt of lines 99-105. -/
def buildPrompt (lib : GoLib) (height occasion condition : String) (temp : Float64)
    (rating : Int) : String :=
  let prompt := promptBase lib height occasion condition temp
  if rating > 0 ∧ rating < 8 then prompt ++ retrySuffix else prompt

/-- The outcome of one run of the handler: the response written, the outbound
requests made, in order, and the value of the global `lastPrompt` afterwards. -/
structure Outcome where
  response : Response
  calls : List Call
  lastPrompt : String
deriving DecidableEq, Repr

/-- The call `suggestHandler(w, r)`: `body` is the request body, `lastPrompt` the
global before the call. -/
def suggestHandler (lib : GoLib) (w : World) (body : String) (lastPrompt : String) : Outcome :=
  match lib.decodeUserInput body with
  | Except.error _ => ⟨httpError "Invalid JSON body" StatusBadRequest, [], lastPrompt⟩
  | Except.ok input =>
    if input.Height = "" ∨ input.Location = "" ∨ input.Occasion = "" then
      ⟨httpError "Missing required fields" StatusBadRequest, [], lastPrompt⟩
    else
      match getLatLon lib w input.Location [] with
      | ((_, _, some _), log) =>
        ⟨httpError "Failed to geocode location" StatusInternalServerError, log, lastPrompt⟩
      | ((lat, lon, none), log) =>
        match fetchWeather lib w lat lon log with
        | ((_, _, some _), log) =>
          ⟨httpError "Failed to fetch weather data" StatusInternalServerError, log, lastPrompt⟩
        | ((temp, condition, none), log) =>
          let prompt := buildPrompt lib input.Height input.Occasion condition temp input.Rating
          match callOllama lib w prompt log with
          | ((_, some _), log) =>
            ⟨httpError "Failed to get AI suggestion" StatusInternalServerError, log, prompt⟩
          | ((suggestion, none), log) =>
            ⟨⟨StatusOK, "application/json", Payload.json [("suggestion", suggestion)]⟩,
              log, prompt⟩

/-! ## `strconv` and `fmt` on `float64` -/

/-- The number of binary digits of `n`; `fuel` bounds the recursion and `n`
itself is always enough. -/
def bitLen : Nat → Nat → Nat
  | 0, _ => 0
  | fuel + 1, n => if n = 0 then 0 else bitLen fuel (n / 2) + 1

/-- The binary64 value with the given sign, biased exponent and fraction. -/
def Float64.ofParts (neg : Bool) (biased frac : Nat) : Float64 :=
  ⟨(if neg then 2 ^ 63 else 0) + biased * 2 ^ 52 + frac⟩

/-- The values `math.Inf(1)` (`neg` false) and `math.Inf(-1)` (`neg` true). -/
def Float64.inf (neg : Bool) : Float64 := Float64.ofParts neg 2047 0

/-- The value `math.NaN()`. -/
def Float64.nan : Float64 := ⟨0x7FF8000000000001⟩

/-- The quotient `num / den` rounded to the nearest integer, ties to even. -/
def divRoundEven (num den : Nat) : Nat :=
  let q := num / den
  let r := num % den
  if 2 * r > den ∨ (2 * r = den ∧ q % 2 = 1) then q + 1 else q

/-- The binary64 with sign `neg` and value `q * 2 ^ e`, where `q < 2 ^ 53`,
and `e = -1074` when `q < 2 ^ 52`; a value beyond the largest exponent is out
of range, and the result then the infinity of that sign. -/
def packFloat64 (neg : Bool) (q : Nat) (e : Int) : Float64 × Bool :=
  if q < 2 ^ 52 then (Float64.ofParts neg 0 q, false)
  else if e + 1075 ≥ 2047 then (Float64.inf neg, true)
  else (Float64.ofParts neg (e + 1075).toNat (q - 2 ^ 52), false)

/-- The binary64 nearest to `± num / den` (IEEE 754 round to nearest, ties to
even), and whether the value is out of range, in which case the result is the
infinity of that sign. -/
def roundToFloat64 (neg : Bool) (num den : Nat) : Float64 × Bool :=
  if num = 0 ∨ den = 0 then (Float64.ofParts neg 0 0, false) else
  let a : Int := bitLen num num
  let b : Int := bitLen den den
  -- `fl` is the integer part of the binary logarithm of `num / den`
  let fl : Int :=
    if num * 2 ^ (b - a).toNat ≥ den * 2 ^ (a - b).toNat then a - b else a - b - 1
  let e : Int := max (fl - 52) (-1074)
  let q := divRoundEven (num * 2 ^ (-e).toNat) (den * 2 ^ e.toNat)
  if q ≥ 2 ^ 53 then packFloat64 neg (q / 2) (e + 1) else packFloat64 neg q e

/-- Go's `lower(c)` of `strconv`: the byte with bit `0x20` set. -/
def lowerByte (c : Char) : Nat := c.toNat ||| 0x20

/-- Whether `c` is a decimal digit. -/
def isDigit (c : Char) : Bool := '0' ≤ c ∧ c ≤ '9'

/-- Whether `c` is one of the letters `a`-`f`, `A`-`F`. -/
def isHexLetter (c : Char) : Bool := c.toNat < 128 ∧ 'a'.toNat ≤ lowerByte c ∧ lowerByte c ≤ 'f'.toNat

/-- The length of the common beginning of `s` and the lower-case word `w`,
letter case of `s` ignored (`commonPrefixLenIgnoreCase`). -/
def commonLenIgnoreCase : List Char → List Char → Nat
  | c :: s, d :: w =>
    let c := if 'A' ≤ c ∧ c ≤ 'Z' then Char.ofNat (c.toNat + 32) else c
    if c = d then commonLenIgnoreCase s w + 1 else 0
  | _, _ => 0

/-- The function `special` of `atof.go`: infinities and NaN, with the number
of characters read. -/
def special (s : List Char) : Option (Float64 × Nat) :=
  let inf (neg : Bool) (nsign : Nat) (t : List Char) : Option (Float64 × Nat) :=
    let n := commonLenIgnoreCase t "infinity".data
    let n := if 3 < n ∧ n < 8 then 3 else n
    if n = 3 ∨ n = 8 then some (Float64.inf neg, nsign + n) else none
  match s with
  | [] => none
  | '+' :: t => inf false 1 t
  | '-' :: t => inf true 1 t
  | c :: t =>
    if c = 'i' ∨ c = 'I' then inf false 0 (c :: t)
    else if c = 'n' ∨ c = 'N' then
      if commonLenIgnoreCase (c :: t) "nan".data = 3 then some (Float64.nan, 3) else none
    else none

/-- The state of the mantissa loop of `readFloat`: the digits read so far as a
number, how many of them follow the point, and the flags of the loop. -/
structure Mantissa where
  value : Nat
  fracDigits : Nat
  sawdot : Bool
  sawdigits : Bool
  underscores : Bool
deriving Repr

/-- The mantissa loop of `readFloat` in base `base`; returns the state and the
characters left. -/
def readMantissa (base : Nat) : List Char → Mantissa → Mantissa × List Char
  | [], m => (m, [])
  | c :: cs, m =>
    if c = '_' then readMantissa base cs { m with underscores := true }
    else if c = '.' then
      if m.sawdot then (m, c :: cs) else readMantissa base cs { m with sawdot := true }
    else if isDigit c then
      readMantissa base cs { m with
        sawdigits := true
        value := m.value * base + (c.toNat - '0'.toNat)
        fracDigits := if m.sawdot then m.fracDigits + 1 else m.fracDigits }
    else if base = 16 ∧ isHexLetter c then
      readMantissa base cs { m with
        sawdigits := true
        value := m.value * 16 + (lowerByte c - 'a'.toNat + 10)
        fracDigits := if m.sawdot then m.fracDigits + 1 else m.fracDigits }
    else (m, c :: cs)

/-- The exponent loop of `readFloat`: digits and underscores, the exponent
no longer growing once it has reached 10000. -/
def readExponent : List Char → Nat → Bool → Nat × Bool × List Char
  | [], e, u => (e, u, [])
  | c :: cs, e, u =>
    if c = '_' then readExponent cs e true
    else if isDigit c then
      readExponent cs (if e < 10000 then e * 10 + (c.toNat - '0'.toNat) else e) u
    else (e, u, c :: cs)

/-- The loop of `underscoreOK`; `saw` is the last character class seen
(`'0'` a digit or base marker, `'_'` an underscore, `'!'` anything else,
`'^'` the beginning). -/
def underscoreLoop (hex : Bool) : List Char → Char → Bool
  | [], saw => saw ≠ '_'
  | c :: cs, saw =>
    if isDigit c ∨ (hex ∧ isHexLetter c) then underscoreLoop hex cs '0'
    else if c = '_' then
      if saw ≠ '0' then false else underscoreLoop hex cs '_'
    else if saw = '_' then false
    else underscoreLoop hex cs '!'

/-- The call `underscoreOK(s)`: underscores only between digits or between a base
marker and a digit. -/
def underscoreOK (s : List Char) : Bool :=
  let s := match s with
    | '-' :: t => t
    | '+' :: t => t
    | _ => s
  match s with
  | '0' :: c :: t =>
    if lowerByte c = 'b'.toNat ∨ lowerByte c = 'o'.toNat ∨ lowerByte c = 'x'.toNat then
      underscoreLoop (lowerByte c = 'x'.toNat) t '0'
    else underscoreLoop false s '^'
  | _ => underscoreLoop false s '^'

/-- What `readFloat` extracts from a well-formed number: the sign, whether
the number is hexadecimal, the mantissa digits as a number, and the exponent
of the base (10, or 2 for hexadecimal) that scales it. -/
structure FloatParts where
  neg : Bool
  hex : Bool
  mantissa : Nat
  exp : Int
deriving Repr

/-- The function `readFloat` of `atof.go`: the parts of the longest number `s`
starts with and the characters left, `none` when `s` does not start with a
well-formed number. -/
def readFloat (s : List Char) : Option (FloatParts × List Char) :=
  let (neg, t) : Bool × List Char := match s with
    | '+' :: t => (false, t)
    | '-' :: t => (true, t)
    | _ => (false, s)
  let (hex, t) : Bool × List Char := match t with
    | '0' :: x :: d :: r => if lowerByte x = 'x'.toNat then (true, d :: r) else (false, t)
    | _ => (false, t)
  let base := if hex then 16 else 10
  let (m, t) := readMantissa base t ⟨0, 0, false, false, false⟩
  if ¬ m.sawdigits then none else
  let scale : Int := if hex then 4 * (m.fracDigits : Int) else m.fracDigits
  let expChar := if hex then 'p'.toNat else 'e'.toNat
  let finish (e : Int) (underscores : Bool) (rest : List Char) :
      Option (FloatParts × List Char) :=
    if underscores ∧ ¬ underscoreOK (s.take (s.length - rest.length)) then none
    else some (⟨neg, hex, m.value, e - scale⟩, rest)
  match t with
  | c :: r =>
    if lowerByte c = expChar ∧ c.toNat < 128 then
      match r with
      | [] => none
      | d :: r1 =>
        let (eneg, r2) : Bool × List Char :=
          if d = '+' then (false, r1) else if d = '-' then (true, r1) else (false, d :: r1)
        match r2 with
        | [] => none
        | d2 :: _ =>
          if ¬ isDigit d2 then none else
          let (e, u, rest) := readExponent r2 0 m.underscores
          finish (if eneg then - (e : Int) else e) u rest
    else if hex then none
    else finish 0 m.underscores t
  | [] => if hex then none else finish 0 m.underscores t

/-- What `ParseFloat` returns for a string that is not a number. -/
def syntaxError : Float64 × Option String := (Float64.zero, some "invalid syntax")

/-- The result of `ParseFloat` for a rounded value: a value out of range
comes with a range error. -/
def rangeChecked (r : Float64 × Bool) : Float64 × Option String :=
  if r.2 then (r.1, some "value out of range") else (r.1, none)

/-- The call `strconv.ParseFloat(s, 64)`: the value and the error (by the text of its
`Err`).  A string that is not a number in full gives `0` and a syntax error;
a number out of range gives the infinity of its sign and a range error. -/
def ParseFloat (str : String) : Float64 × Option String :=
  match special str.data with
  | some (val, n) => if n ≠ str.data.length then syntaxError else (val, none)
  | none =>
    match readFloat str.data with
    | none => syntaxError
    | some (p, rest) =>
      if rest ≠ [] then syntaxError
      else if p.hex then
        rangeChecked (roundToFloat64 p.neg (p.mantissa * 2 ^ p.exp.toNat) (2 ^ (-p.exp).toNat))
      else
        rangeChecked (roundToFloat64 p.neg (p.mantissa * 10 ^ p.exp.toNat) (10 ^ (-p.exp).toNat))

/-- The decimal digits of `n`, padded with zeros on the left to `width`. -/
def padDigits (width n : Nat) : String :=
  let d := Nat.repr n
  String.mk (List.replicate (width - d.length) '0') ++ d

/-- The verb `%.Nf` (`prec` digits after the point) applied to a `float64`. -/
def formatFixed (prec : Nat) (f : Float64) : String :=
  let neg := f.bits / 2 ^ 63 % 2 = 1
  let biased := f.bits / 2 ^ 52 % 2 ^ 11
  let frac := f.bits % 2 ^ 52
  if biased = 2047 then
    if frac ≠ 0 then "NaN" else if neg then "-Inf" else "+Inf"
  else
    -- the value is `m * 2 ^ (e - 1074)`
    let m := if biased = 0 then frac else 2 ^ 52 + frac
    let e := if biased = 0 then 0 else biased - 1
    let n := divRoundEven (m * 2 ^ e * 10 ^ prec) (2 ^ 1074)
    let digits := Nat.repr (n / 10 ^ prec)
      ++ (if prec = 0 then "" else "." ++ padDigits prec (n % 10 ^ prec))
    if neg then "-" ++ digits else digits

/-! ## `encoding/json` -/

/-- A JSON value as the decoder sees it; a number keeps its literal text. -/
inductive JSON where
  | null
  | bool (b : Bool)
  | number (lit : String)
  | string (s : String)
  | array (elems : List JSON)
  | object (members : List (String × JSON))
deriving Repr

/-- The white space of JSON (`isSpace` of `scanner.go`). -/
def isSpace (c : Char) : Bool := c = ' ' ∨ c = '\t' ∨ c = '\r' ∨ c = '\n'

/-- Drop leading white space. -/
def skipSpace : List Char → List Char
  | [] => []
  | c :: cs => if isSpace c then skipSpace cs else c :: cs

/-- The value of a hexadecimal digit. -/
def hexDigit (c : Char) : Option Nat :=
  if isDigit c then some (c.toNat - '0'.toNat)
  else if 'a' ≤ c ∧ c ≤ 'f' then some (c.toNat - 'a'.toNat + 10)
  else if 'A' ≤ c ∧ c ≤ 'F' then some (c.toNat - 'A'.toNat + 10)
  else none

/-- Four hexadecimal digits, as after `\u` (`getu4`). -/
def hex4 : List Char → Option (Nat × List Char)
  | a :: b :: c :: d :: rest =>
    match hexDigit a, hexDigit b, hexDigit c, hexDigit d with
    | some a, some b, some c, some d => some (((a * 16 + b) * 16 + c) * 16 + d, rest)
    | _, _, _, _ => none
  | _ => none

/-- The Unicode replacement character, written for an unpaired surrogate. -/
def replacementChar : Char := Char.ofNat 0xFFFD

/-- The characters of a string literal after its opening quote, escapes
resolved as `unquote` does, up to the closing quote; `none` for a literal the
scanner rejects (unterminated, a control character, a bad escape).  The first
argument bounds the recursion, each step of which reads a character. -/
def parseStringBody : Nat → List Char → List Char → Option (String × List Char)
  | 0, _, _ => none
  | _ + 1, [], _ => none
  | fuel + 1, c :: cs, acc =>
    if c = '"' then some (String.mk acc, cs)
    else if c.toNat < 0x20 then none
    else if c = '\\' then
      match cs with
      | [] => none
      | e :: rest =>
        if e = 'u' then
          match hex4 rest with
          | none => none
          | some (r, rest) =>
            if 0xD800 ≤ r ∧ r < 0xE000 then
              -- a surrogate: valid only as the first half of a pair
              match rest with
              | '\\' :: 'u' :: rest2 =>
                match hex4 rest2 with
                | some (r2, rest3) =>
                  if r < 0xDC00 ∧ 0xDC00 ≤ r2 ∧ r2 < 0xE000 then
                    parseStringBody fuel rest3
                      (acc ++ [Char.ofNat (0x10000 + (r - 0xD800) * 0x400 + (r2 - 0xDC00))])
                  else parseStringBody fuel rest (acc ++ [replacementChar])
                | none => parseStringBody fuel rest (acc ++ [replacementChar])
              | _ => parseStringBody fuel rest (acc ++ [replacementChar])
            else parseStringBody fuel rest (acc ++ [Char.ofNat r])
        else
          let plain : Option Char :=
            if e = '"' ∨ e = '\\' ∨ e = '/' then some e
            else if e = 'b' then some (Char.ofNat 8)
            else if e = 'f' then some (Char.ofNat 12)
            else if e = 'n' then some '\n'
            else if e = 'r' then some '\r'
            else if e = 't' then some '\t'
            else none
          match plain with
          | none => none
          | some d => parseStringBody fuel rest (acc ++ [d])
    else parseStringBody fuel cs (acc ++ [c])

/-- The leading decimal digits of the input, and the rest. -/
def takeDigits : List Char → List Char × List Char
  | [] => ([], [])
  | c :: cs =>
    if isDigit c then
      let (ds, rest) := takeDigits cs
      (c :: ds, rest)
    else ([], c :: cs)

/-- A number literal at the head of the input: the literal and the rest.
Once a point or an exponent mark is read, its digits are required. -/
def parseNumber (cs : List Char) : Option (String × List Char) :=
  let (sign, cs) : List Char × List Char := match cs with
    | '-' :: r => (['-'], r)
    | _ => ([], cs)
  let whole : Option (List Char × List Char) := match cs with
    | [] => none
    | c :: r =>
      if c = '0' then some (['0'], r)
      else if isDigit c then
        let (ds, r) := takeDigits r
        some (c :: ds, r)
      else none
  match whole with
  | none => none
  | some (ip, cs) =>
    let frac : Option (List Char × List Char) := match cs with
      | '.' :: r =>
        let (ds, r) := takeDigits r
        if ds = [] then none else some ('.' :: ds, r)
      | _ => some ([], cs)
    match frac with
    | none => none
    | some (fp, cs) =>
      let exp : Option (List Char × List Char) := match cs with
        | c :: r =>
          if c = 'e' ∨ c = 'E' then
            let (sg, r) : List Char × List Char := match r with
              | '+' :: r => (['+'], r)
              | '-' :: r => (['-'], r)
              | _ => ([], r)
            let (ds, r) := takeDigits r
            if ds = [] then none else some (c :: sg ++ ds, r)
          else some ([], cs)
        | [] => some ([], cs)
      match exp with
      | none => none
      | some (ep, cs) => some (String.mk (sign ++ ip ++ fp ++ ep), cs)

/-- The nesting limit of the scanner (`maxNestingDepth`). -/
def maxNestingDepth : Nat := 10000

mutual
/-- The first JSON value of the input and what follows it, as the scanner
delimits it; `depth` is the number of arrays and objects open around it.
The first argument bounds the recursion: every second step of the descent
reads a character, and the callers pass the length of the input plus one. -/
def parseValue : Nat → Nat → List Char → Option (JSON × List Char)
  | 0, _, _ => none
  | fuel + 1, depth, cs =>
    match skipSpace cs with
    | [] => none
    | c :: rest =>
      if c = '\x7b' then
        if depth + 1 > maxNestingDepth then none else
        match skipSpace rest with
        | '\x7d' :: rest => some (JSON.object [], rest)
        | rest => parseMembers fuel (depth + 1) rest []
      else if c = '[' then
        if depth + 1 > maxNestingDepth then none else
        match skipSpace rest with
        | ']' :: rest => some (JSON.array [], rest)
        | rest => parseElements fuel (depth + 1) rest []
      else if c = '"' then
        match parseStringBody (rest.length + 1) rest [] with
        | none => none
        | some (s, rest) => some (JSON.string s, rest)
      else if c = '-' ∨ isDigit c then
        match parseNumber (c :: rest) with
        | none => none
        | some (lit, rest) => some (JSON.number lit, rest)
      else
        match c :: rest with
        | 't' :: 'r' :: 'u' :: 'e' :: rest => some (JSON.bool true, rest)
        | 'f' :: 'a' :: 'l' :: 's' :: 'e' :: rest => some (JSON.bool false, rest)
        | 'n' :: 'u' :: 'l' :: 'l' :: rest => some (JSON.null, rest)
        | _ => none
/-- The elements of an array after its opening bracket, the array not empty. -/
def parseElements : Nat → Nat → List Char → List JSON → Option (JSON × List Char)
  | 0, _, _, _ => none
  | fuel + 1, depth, cs, acc =>
    match parseValue fuel depth cs with
    | none => none
    | some (v, rest) =>
      match skipSpace rest with
      | ',' :: rest => parseElements fuel depth rest (acc ++ [v])
      | ']' :: rest => some (JSON.array (acc ++ [v]), rest)
      | _ => none
/-- The members of an object after its opening brace, the object not empty. -/
def parseMembers : Nat → Nat → List Char → List (String × JSON) → Option (JSON × List Char)
  | 0, _, _, _ => none
  | fuel + 1, depth, cs, acc =>
    match skipSpace cs with
    | '"' :: rest =>
      match parseStringBody (rest.length + 1) rest [] with
      | none => none
      | some (key, rest) =>
        match skipSpace rest with
        | ':' :: rest =>
          match parseValue fuel depth rest with
          | none => none
          | some (v, rest) =>
            match skipSpace rest with
            | ',' :: rest => parseMembers fuel depth rest (acc ++ [(key, v)])
            | '\x7d' :: rest => some (JSON.object (acc ++ [(key, v)]), rest)
            | _ => none
        | _ => none
    | _ => none
end

/-- What `Decoder.Decode` reads: the first JSON value of the body.  What
follows that value stays in the decoder's buffer and is not looked at. -/
def decodeFirstValue (body : String) : Except String JSON :=
  match parseValue (body.length + 1) 0 body.data with
  | none => Except.error "invalid JSON"
  | some (v, _) => Except.ok v

/-- What `json.Unmarshal` reads: the input must be one JSON value, with
nothing but white space around it (`checkValid`). -/
def unmarshalValue (data : String) : Except String JSON :=
  match parseValue (data.length + 1) 0 data.data with
  | none => Except.error "invalid JSON"
  | some (v, rest) =>
    if skipSpace rest = [] then Except.ok v else Except.error "invalid character after top-level value"

/-- The call `json.Valid(data)`: whether `data` is a valid JSON encoding. -/
def jsonValid (data : String) : Bool :=
  match unmarshalValue data with
  | Except.ok _ => true
  | Except.error _ => false

/-- The folding of object keys used to match them with field names: letter
case is ignored, and the two non-ASCII letters that fold to ASCII ones
(U+017F, U+212A) are folded with them. -/
def foldRune (c : Char) : Char :=
  if 'a' ≤ c ∧ c ≤ 'z' then Char.ofNat (c.toNat - 32)
  else if c = Char.ofNat 0x17F then 'S'
  else if c = Char.ofNat 0x212A then 'K'
  else c

/-- Whether the object key `key` names the struct field tagged `name`. -/
def keyMatches (name key : String) : Bool :=
  key = name ∨ key.data.map foldRune = name.data.map foldRune

/-- The error of a JSON value that does not fit the Go type. -/
def typeError (goType : String) : String := "json: cannot unmarshal into Go value of type " ++ goType

/-- Store a JSON value in a `string`; `null` leaves the old value. -/
def storeString (v : JSON) (old : String) : Except String String :=
  match v with
  | JSON.null => Except.ok old
  | JSON.string s => Except.ok s
  | _ => Except.error (typeError "string")

/-- Store a JSON value in a `bool`. -/
def storeBool (v : JSON) (old : Bool) : Except String Bool :=
  match v with
  | JSON.null => Except.ok old
  | JSON.bool b => Except.ok b
  | _ => Except.error (typeError "bool")

/-- The digits of a number written without fraction and exponent. -/
def digitsValue : List Char → Option Nat
  | [] => none
  | cs => if cs.all isDigit then some (cs.foldl (fun n c => n * 10 + (c.toNat - '0'.toNat)) 0) else none

/-- Store a JSON value in an `int`: the literal must be an integer that fits
64 bits (`strconv.ParseInt(lit, 10, 64)`). -/
def storeInt (v : JSON) (old : Int) : Except String Int :=
  match v with
  | JSON.null => Except.ok old
  | JSON.number lit =>
    let parsed : Option Int := match lit.data with
      | '-' :: ds => (digitsValue ds).map (fun n => - (n : Int))
      | ds => (digitsValue ds).map (fun n => (n : Int))
    match parsed with
    | some n => if - 2 ^ 63 ≤ n ∧ n < 2 ^ 63 then Except.ok n else Except.error (typeError "int")
    | none => Except.error (typeError "int")
  | _ => Except.error (typeError "int")

/-- Store a JSON value in a `float64`: `strconv.ParseFloat` of the literal,
any error of which is a type error. -/
def storeFloat (v : JSON) (old : Float64) : Except String Float64 :=
  match v with
  | JSON.null => Except.ok old
  | JSON.number lit =>
    match ParseFloat lit with
    | (f, none) => Except.ok f
    | (_, some _) => Except.error (typeError "float64")
  | _ => Except.error (typeError "float64")

/-- Store the members of an object in a `UserInput`, in order. -/
def storeUserInput : List (String × JSON) → UserInput → Except String UserInput
  | [], u => Except.ok u
  | (k, v) :: ms, u =>
    if keyMatches "height" k then
      match storeString v u.Height with
      | Except.ok s => storeUserInput ms { u with Height := s }
      | Except.error e => Except.error e
    else if keyMatches "location" k then
      match storeString v u.Location with
      | Except.ok s => storeUserInput ms { u with Location := s }
      | Except.error e => Except.error e
    else if keyMatches "occasion" k then
      match storeString v u.Occasion with
      | Except.ok s => storeUserInput ms { u with Occasion := s }
      | Except.error e => Except.error e
    else if keyMatches "rating" k then
      match storeInt v u.Rating with
      | Except.ok n => storeUserInput ms { u with Rating := n }
      | Except.error e => Except.error e
    else storeUserInput ms u

/-- Store a JSON value in a `UserInput` that holds `old`. -/
def storeUserInputValue (v : JSON) (old : UserInput) : Except String UserInput :=
  match v with
  | JSON.null => Except.ok old
  | JSON.object ms => storeUserInput ms old
  | _ => Except.error (typeError "main.UserInput")

/-- Store the members of an object in a `streamChunk`. -/
def storeStreamChunk : List (String × JSON) → streamChunk → Except String streamChunk
  | [], u => Except.ok u
  | (k, v) :: ms, u =>
    if keyMatches "response" k then
      match storeString v u.Response with
      | Except.ok s => storeStreamChunk ms { u with Response := s }
      | Except.error e => Except.error e
    else if keyMatches "done" k then
      match storeBool v u.Done with
      | Except.ok b => storeStreamChunk ms { u with Done := b }
      | Except.error e => Except.error e
    else storeStreamChunk ms u

/-- Store a JSON value in a `streamChunk` that holds `old`. -/
def storeStreamChunkValue (v : JSON) (old : streamChunk) : Except String streamChunk :=
  match v with
  | JSON.null => Except.ok old
  | JSON.object ms => storeStreamChunk ms old
  | _ => Except.error (typeError "main.streamChunk")

/-- Store the members of an object in an element of `GeoResponse`. -/
def storeGeoEntry : List (String × JSON) → GeoEntry → Except String GeoEntry
  | [], u => Except.ok u
  | (k, v) :: ms, u =>
    if keyMatches "lat" k then
      match storeString v u.Lat with
      | Except.ok s => storeGeoEntry ms { u with Lat := s }
      | Except.error e => Except.error e
    else if keyMatches "lon" k then
      match storeString v u.Lon with
      | Except.ok s => storeGeoEntry ms { u with Lon := s }
      | Except.error e => Except.error e
    else storeGeoEntry ms u

/-- Store the elements of an array in a fresh `GeoResponse`. -/
def storeGeoEntries : List JSON → Except String GeoResponse
  | [] => Except.ok []
  | v :: vs =>
    let entry : Except String GeoEntry := match v with
      | JSON.null => Except.ok ⟨"", ""⟩
      | JSON.object ms => storeGeoEntry ms ⟨"", ""⟩
      | _ => Except.error (typeError "struct \x7b Lat string; Lon string \x7d")
    match entry, storeGeoEntries vs with
    | Except.ok g, Except.ok gs => Except.ok (g :: gs)
    | Except.error e, _ => Except.error e
    | _, Except.error e => Except.error e

/-- Store a JSON value in a `GeoResponse` that is `nil`. -/
def storeGeoResponseValue (v : JSON) : Except String GeoResponse :=
  match v with
  | JSON.null => Except.ok []
  | JSON.array vs => storeGeoEntries vs
  | _ => Except.error (typeError "main.GeoResponse")

/-- Store the members of an object in the field `current_weather`. -/
def storeCurrentWeather : List (String × JSON) → CurrentWeather → Except String CurrentWeather
  | [], u => Except.ok u
  | (k, v) :: ms, u =>
    if keyMatches "temperature" k then
      match storeFloat v u.Temperature with
      | Except.ok f => storeCurrentWeather ms { u with Temperature := f }
      | Except.error e => Except.error e
    else if keyMatches "windspeed" k then
      match storeFloat v u.Windspeed with
      | Except.ok f => storeCurrentWeather ms { u with Windspeed := f }
      | Except.error e => Except.error e
    else storeCurrentWeather ms u

/-- Store the members of an object in an `OpenMeteoResponse`. -/
def storeOpenMeteo : List (String × JSON) → OpenMeteoResponse → Except String OpenMeteoResponse
  | [], u => Except.ok u
  | (k, v) :: ms, u =>
    if keyMatches "current_weather" k then
      match v with
      | JSON.null => storeOpenMeteo ms u
      | JSON.object ws =>
        match storeCurrentWeather ws u.CurrentWeather with
        | Except.ok cw => storeOpenMeteo ms { u with CurrentWeather := cw }
        | Except.error e => Except.error e
      | _ => Except.error (typeError "struct")
    else storeOpenMeteo ms u

/-- Store a JSON value in an `OpenMeteoResponse` that holds `old`. -/
def storeOpenMeteoValue (v : JSON) (old : OpenMeteoResponse) : Except String OpenMeteoResponse :=
  match v with
  | JSON.null => Except.ok old
  | JSON.object ms => storeOpenMeteo ms old
  | _ => Except.error (typeError "main.OpenMeteoResponse")

/-- The standard library as documented: `Decode` reads the first JSON value
of a body into a zero value, `Unmarshal` requires the input to be one value. -/
def goLib : GoLib where
  decodeUserInput body :=
    match decodeFirstValue body with
    | Except.ok v => storeUserInputValue v ⟨"", "", "", 0⟩
    | Except.error e => Except.error e
  decodeGeoResponse body :=
    match decodeFirstValue body with
    | Except.ok v => storeGeoResponseValue v
    | Except.error e => Except.error e
  decodeOpenMeteo body :=
    match decodeFirstValue body with
    | Except.ok v => storeOpenMeteoValue v ⟨⟨Float64.zero, Float64.zero⟩⟩
    | Except.error e => Except.error e
  unmarshalStreamChunk line :=
    match unmarshalValue line with
    | Except.ok v => storeStreamChunkValue v ⟨"", false⟩
    | Except.error e => Except.error e
  parseFloat := ParseFloat
  formatFixed := formatFixed

/-! ## Query strings (`net/url`) -/

/-- Cut the input at the first occurrence of `sep`: what stands before it,
and what stands after it when it occurs (`strings.Cut`). -/
def cutAt (sep : Char) : List Char → List Char × Option (List Char)
  | [] => ([], none)
  | c :: cs =>
    if c = sep then ([], some cs)
    else
      let (before, after) := cutAt sep cs
      (c :: before, after)

/-- The pieces of the input between the occurrences of `sep`. -/
def splitOn (sep : Char) : List Char → List (List Char)
  | [] => [[]]
  | c :: cs =>
    if c = sep then [] :: splitOn sep cs
    else
      match splitOn sep cs with
      | [] => [[c]]
      | p :: ps => (c :: p) :: ps

/-- The query component of a URL: the fragment is cut off at the first `#`,
the query starts after the first `?` of what is left (`url.Parse`). -/
def rawQuery (url : String) : List Char :=
  match cutAt '?' (cutAt '#' url.data).1 with
  | (_, some q) => q
  | (_, none) => []

/-- The parameters of the query of a URL as written, in order: the query is
split at each `&`, empty pieces are dropped, and a piece is a name and a
value separated by its first `=` (`url.ParseQuery`, before unescaping). -/
def rawQueryParams (url : String) : List (String × String) :=
  ((splitOn '&' (rawQuery url)).filter (fun p => p ≠ [])).map (fun p =>
    match cutAt '=' p with
    | (k, some v) => (String.mk k, String.mk v)
    | (k, none) => (String.mk k, ""))

/-! ## Reading the stream, as the specification words it -/

/-- Whether `json.Unmarshal` accepts the line as a `streamChunk`. -/
def parsesAsChunk (lib : GoLib) (line : String) : Bool :=
  match lib.unmarshalStreamChunk line with
  | Except.ok _ => true
  | Except.error _ => false

/-- The records of a stream: its lines that parse, in arrival order. -/
def streamRecords (lib : GoLib) : List String → List streamChunk
  | [] => []
  | line :: lines =>
    match lib.unmarshalStreamChunk line with
    | Except.ok chunk => chunk :: streamRecords lib lines
    | Except.error _ => streamRecords lib lines

/-- The records up to and including the first one whose `Done` flag is set,
all of them when none has it set. -/
def throughFirstDone : List streamChunk → List streamChunk
  | [] => []
  | c :: cs => if c.Done then [c] else c :: throughFirstDone cs

/-- The response fragments of the records, concatenated in order. -/
def concatResponses : List streamChunk → String
  | [] => ""
  | c :: cs => c.Response ++ concatResponses cs

/-- A stream read without a read error: `scanner.Err()` is `nil` throughout,
after each line delivered and at the end, and no line is too long for the
scanner. -/
def LineStream.clean (s : LineStream) : Prop :=
  s.errEnd = none ∧ ∀ sc ∈ s.scans, sc.errNow = none ∧ sc.tooLong s.eofWithData = false

/-! ## Sample runs -/

/-- The endpoint of the generation service. -/
def ollamaURL : String := "http://localhost:11434/api/generate"

/-- The three stream lines of the specification's example. -/
def abcLines : List Scanned :=
  [⟨"\x7b\"response\":\"A\",\"done\":false\x7d", "\n", none⟩,
   ⟨"\x7b\"response\":\"B\",\"done\":true\x7d", "\n", none⟩,
   ⟨"\x7b\"response\":\"C\",\"done\":false\x7d", "\n", none⟩]

/-- A line of 65536 letters `x`, which is not JSON. -/
def longLine : String := String.mk ('x' :: List.replicate 65535 'x')

/-- A world in which the geocoder has two candidates for Paris, the weather
is 21.3 degrees and the generation service streams the three lines of
`abcLines`. -/
def demoWorld : World where
  get url :=
    if url = "https://nominatim.openstreetmap.org/search?q=Paris&format=json&limit=1" then
      Except.ok "[\x7b\"lat\":\"48.8566\",\"lon\":\"2.3522\"\x7d,\x7b\"lat\":\"33.6609\",\"lon\":\"-95.5555\"\x7d]"
    else if url = "https://api.open-meteo.com/v1/forecast?latitude=48.856600&longitude=2.352200&current_weather=true" then
      Except.ok "\x7b\"current_weather\":\x7b\"temperature\":21.3,\"windspeed\":7.2\x7d\x7d"
    else Except.error "no such host"
  post _ _ _ := Except.ok ⟨abcLines, none, false⟩

/-- A world without network: every outbound request fails in transport. -/
def offlineWorld : World where
  get _ := Except.error "dial tcp: connection refused"
  post _ _ _ := Except.error "dial tcp: connection refused"

/-- The world of `demoWorld`, except that the generation stream breaks after
one fragment with a read error. -/
def brokenStreamWorld : World where
  get := demoWorld.get
  post _ _ _ :=
    Except.ok ⟨[⟨"\x7b\"response\":\"Wear a\",\"done\":false\x7d", "\n", none⟩],
      some "unexpected EOF", false⟩

/-- The world of `demoWorld`, except that the geocoder answers with a
latitude that is out of the range of `float64`. -/
def hugeLatitudeWorld : World where
  get url :=
    if url = "https://nominatim.openstreetmap.org/search?q=Paris&format=json&limit=1" then
      Except.ok "[\x7b\"lat\":\"1e999\",\"lon\":\"2.3522\"\x7d]"
    else Except.error "no such host"
  post := demoWorld.post

/-- The world of `demoWorld`, except that the geocoder answers with a
latitude that is not a number. -/
def wordyLatitudeWorld : World where
  get url :=
    if url = "https://nominatim.openstreetmap.org/search?q=Paris&format=json&limit=1" then
      Except.ok "[\x7b\"lat\":\"north\",\"lon\":\"2.3522\"\x7d]"
    else Except.error "no such host"
  post := demoWorld.post

/-- A well-formed request body. -/
def demoBody : String :=
  "\x7b\"height\":\"180cm\",\"location\":\"Paris\",\"occasion\":\"wedding\",\"rating\":5\x7d"

/-- The body `demoBody` followed by text that is not JSON. -/
def trailingGarbageBody : String := demoBody ++ " trailing garbage"

/-! ## Facts about the stages -/

/-- The function `getLatLon` makes exactly one outbound request, the `GET` of its URL. -/
theorem getLatLon_log (lib : GoLib) (w : World) (city : String) (log : List Call) :
    (getLatLon lib w city log).2 = log ++ [Call.get (getLatLonURL city)] := by
  unfold getLatLon httpGet
  cases hg : w.get (getLatLonURL city) with
  | error e => simp [hg]
  | ok body =>
    cases hd : lib.decodeGeoResponse body with
    | error e => simp [hg, hd]
    | ok geo => cases geo <;> simp [hg, hd]

/-- The function `fetchWeather` makes exactly one outbound request, the `GET` of its URL. -/
theorem fetchWeather_log (lib : GoLib) (w : World) (lat lon : Float64) (log : List Call) :
    (fetchWeather lib w lat lon log).2 = log ++ [Call.get (fetchWeatherURL lib lat lon)] := by
  unfold fetchWeather httpGet
  cases hg : w.get (fetchWeatherURL lib lat lon) with
  | error e => simp [hg]
  | ok body => cases hd : lib.decodeOpenMeteo body <;> simp [hg, hd]

/-- A successful `fetchWeather` reports the condition `"clear"`. -/
theorem fetchWeather_condition (lib : GoLib) (w : World) (lat lon temp : Float64)
    (condition : String) (log log2 : List Call)
    (h : fetchWeather lib w lat lon log = ((temp, condition, none), log2)) :
    condition = "clear" := by
  unfold fetchWeather httpGet at h
  cases hg : w.get (fetchWeatherURL lib lat lon) with
  | error e => simp [hg] at h
  | ok body =>
    cases hd : lib.decodeOpenMeteo body with
    | error e => simp [hg, hd] at h
    | ok om =>
      simp [hg, hd] at h
      exact h.1.2.symm

/-- The function `callOllama` makes exactly one outbound request, the `POST` of the prompt. -/
theorem callOllama_log (lib : GoLib) (w : World) (prompt : String) (log : List Call) :
    (callOllama lib w prompt log).2 =
      log ++ [Call.post ollamaURL "application/json" [("prompt", prompt), ("model", "llama3.2")]] := by
  unfold callOllama httpPost ollamaURL
  cases hp : w.post "http://localhost:11434/api/generate" "application/json"
      [("prompt", prompt), ("model", "llama3.2")] with
  | error e => simp [hp]
  | ok stream =>
    rcases hl : callOllamaLoop lib stream.errEnd stream.eofWithData stream.scans ""
      with ⟨full, _ | e⟩ <;> simp [hp, hl]

/-! ## C1 -/

/-- C1: a decoded request with an empty height, location or occasion gets
status 400 with the text "Missing required fields", and no outbound request
is made, whatever the other fields and the rating are. -/
theorem suggestHandler_missing_fields (lib : GoLib) (w : World) (body lastPrompt : String)
    (input : UserInput) (hdec : lib.decodeUserInput body = Except.ok input)
    (hmiss : input.Height = "" ∨ input.Location = "" ∨ input.Occasion = "") :
    (suggestHandler lib w body lastPrompt).response.status = 400 ∧
    (suggestHandler lib w body lastPrompt).response.payload
      = Payload.text "Missing required fields" ∧
    (suggestHandler lib w body lastPrompt).calls = [] := by
  unfold suggestHandler
  rw [hdec]
  simp only []
  rw [if_pos hmiss]
  exact ⟨rfl, rfl, rfl⟩

/-- C1 at a request without occasion, in a world where every stage would
succeed. -/
theorem suggestHandler_missing_fields_witness :
    (suggestHandler goLib demoWorld
        "\x7b\"height\":\"180cm\",\"location\":\"Paris\",\"occasion\":\"\",\"rating\":9\x7d" "").response.status
      = 400 ∧
    (suggestHandler goLib demoWorld
        "\x7b\"height\":\"180cm\",\"location\":\"Paris\",\"occasion\":\"\",\"rating\":9\x7d" "").response.payload
      = Payload.text "Missing required fields" ∧
    (suggestHandler goLib demoWorld
        "\x7b\"height\":\"180cm\",\"location\":\"Paris\",\"occasion\":\"\",\"rating\":9\x7d" "").calls = [] :=
  suggestHandler_missing_fields goLib demoWorld _ "" ⟨"180cm", "Paris", "", 9⟩ (by rfl)
    (Or.inr (Or.inr rfl))

/-! ## C2 -/

/-- The retry suffix is not empty, so appending it changes the prompt. -/
theorem append_retrySuffix_ne (s : String) : s ++ retrySuffix ≠ s := by
  intro h
  have hl := congrArg String.length h
  rw [String.length_append] at hl
  have : retrySuffix.length = 63 := by decide
  omega

/-- C2: the prompt is the template filled with height, occasion, condition
and the temperature with one decimal, followed by the retry suffix exactly
when `0 < rating < 8`; for `rating <= 0` or `rating >= 8` it is the template
alone. -/
theorem buildPrompt_spec (lib : GoLib) (height occasion condition : String) (temp : Float64)
    (rating : Int) :
    (0 < rating ∧ rating < 8 →
      buildPrompt lib height occasion condition temp rating =
        ("Suggest clothing for a person with height " ++ height ++ " attending a " ++ occasion
          ++ " in " ++ condition ++ " weather with temperature " ++ lib.formatFixed 1 temp
          ++ "°C.") ++ " The previous suggestion wasn't good enough. Make a better one.") ∧
    (rating ≤ 0 ∨ 8 ≤ rating →
      buildPrompt lib height occasion condition temp rating =
        "Suggest clothing for a person with height " ++ height ++ " attending a " ++ occasion
          ++ " in " ++ condition ++ " weather with temperature " ++ lib.formatFixed 1 temp
          ++ "°C.") ∧
    (buildPrompt lib height occasion condition temp rating =
        ("Suggest clothing for a person with height " ++ height ++ " attending a " ++ occasion
          ++ " in " ++ condition ++ " weather with temperature " ++ lib.formatFixed 1 temp
          ++ "°C.") ++ " The previous suggestion wasn't good enough. Make a better one."
      ↔ 0 < rating ∧ rating < 8) := by
  have hyes : 0 < rating ∧ rating < 8 →
      buildPrompt lib height occasion condition temp rating =
        promptBase lib height occasion condition temp ++ retrySuffix := by
    intro h
    unfold buildPrompt
    simp only []
    rw [if_pos (show rating > 0 ∧ rating < 8 from h)]
  have hno : ¬ (0 < rating ∧ rating < 8) →
      buildPrompt lib height occasion condition temp rating =
        promptBase lib height occasion condition temp := by
    intro h
    unfold buildPrompt
    simp only []
    rw [if_neg (show ¬ (rating > 0 ∧ rating < 8) from h)]
  refine ⟨hyes, ?_, ?_⟩
  · intro h
    exact hno (by omega)
  · constructor
    · intro h
      by_contra hn
      rw [hno hn] at h
      exact append_retrySuffix_ne _ h.symm
    · exact hyes

/-- C2 at the specification's example: height "180cm", occasion "wedding",
rating 5, temperature 21.3, condition "clear". -/
theorem buildPrompt_spec_witness :
    buildPrompt goLib "180cm" "wedding" "clear" (ParseFloat "21.3").1 5 =
      "Suggest clothing for a person with height 180cm attending a wedding in clear weather with temperature 21.3°C. The previous suggestion wasn't good enough. Make a better one." :=
  ((buildPrompt_spec goLib "180cm" "wedding" "clear" (ParseFloat "21.3").1 5).1
    ⟨by decide, by decide⟩).trans (by decide!)

/-! ## C3 and C4 -/

/-- The text gathered by the loop on lines none of which is too long: what
was gathered before, then the fragments of the records up to and including
the first final one. -/
theorem callOllamaLoop_text (lib : GoLib) (errEnd : Option String) (eofWithData : Bool)
    (scans : List Scanned) (full : String)
    (h : ∀ sc ∈ scans, sc.tooLong eofWithData = false) :
    (callOllamaLoop lib errEnd eofWithData scans full).1 =
      full ++ concatResponses (throughFirstDone (streamRecords lib (scans.map Scanned.line))) := by
  induction scans generalizing full with
  | nil => simp [callOllamaLoop, streamRecords, throughFirstDone, concatResponses]
  | cons sc rest ih =>
    have hrest : ∀ s ∈ rest, s.tooLong eofWithData = false :=
      fun s hs => h s (List.mem_cons_of_mem _ hs)
    have hsc : sc.tooLong eofWithData = false := h sc (List.mem_cons_self _ _)
    simp only [callOllamaLoop, hsc, Bool.false_eq_true, if_false, List.map_cons, streamRecords]
    cases hu : lib.unmarshalStreamChunk sc.line with
    | error e => simpa using ih full hrest
    | ok chunk =>
      simp only [throughFirstDone]
      by_cases hd : chunk.Done = true
      · simp [hd, concatResponses]
      · simp only [hd, Bool.false_eq_true, if_false, concatResponses]
        rw [ih _ hrest, String.append_assoc]

/-- The error reported after the loop on a stream read without read error. -/
theorem callOllamaLoop_clean (lib : GoLib) (eofWithData : Bool) (scans : List Scanned)
    (full : String)
    (h : ∀ sc ∈ scans, sc.errNow = none ∧ sc.tooLong eofWithData = false) :
    (callOllamaLoop lib none eofWithData scans full).2 = none := by
  induction scans generalizing full with
  | nil => rfl
  | cons sc rest ih =>
    have hrest : ∀ s ∈ rest, s.errNow = none ∧ s.tooLong eofWithData = false :=
      fun s hs => h s (List.mem_cons_of_mem _ hs)
    have hsc := h sc (List.mem_cons_self _ _)
    simp only [callOllamaLoop, hsc.2, Bool.false_eq_true, if_false]
    cases hu : lib.unmarshalStreamChunk sc.line with
    | error e => simpa using ih full hrest
    | ok chunk =>
      by_cases hd : chunk.Done = true
      · simp [hd, hsc.1]
      · simpa [hd] using ih _ hrest

/-- The text gathered by a run of the loop that is left with no error, on
any lines: the loop did not meet a line too long for the scanner. -/
theorem callOllamaLoop_text_of_no_error (lib : GoLib) (errEnd : Option String)
    (eofWithData : Bool) (scans : List Scanned) (full : String)
    (h : (callOllamaLoop lib errEnd eofWithData scans full).2 = none) :
    (callOllamaLoop lib errEnd eofWithData scans full).1 =
      full ++ concatResponses (throughFirstDone (streamRecords lib (scans.map Scanned.line))) := by
  induction scans generalizing full with
  | nil => simp [callOllamaLoop, streamRecords, throughFirstDone, concatResponses]
  | cons sc rest ih =>
    by_cases hlong : sc.tooLong eofWithData = true
    · simp [callOllamaLoop, hlong] at h
    · simp only [callOllamaLoop, hlong, if_false, List.map_cons, streamRecords] at h ⊢
      cases hu : lib.unmarshalStreamChunk sc.line with
      | error e =>
        rw [hu] at h
        simpa using ih full h
      | ok chunk =>
        rw [hu] at h
        simp only [throughFirstDone]
        by_cases hd : chunk.Done = true
        · simp [hd, concatResponses]
        · simp only [hd, Bool.false_eq_true, if_false, concatResponses] at h ⊢
          rw [ih _ h, String.append_assoc]

/-- C3: on a stream read without a read error, `callOllama` returns, with no
error, the fragments of the records up to and including the first record
whose done flag is set (of all records when none is), concatenated in
arrival order; and whenever `callOllama` returns no error, on any stream,
the text it returns is that concatenation. -/
theorem callOllama_aggregates (lib : GoLib) (w : World) (prompt : String) (log : List Call)
    (stream : LineStream)
    (hpost : w.post "http://localhost:11434/api/generate" "application/json"
      [("prompt", prompt), ("model", "llama3.2")] = Except.ok stream) :
    (stream.clean →
      (callOllama lib w prompt log).1 =
        (concatResponses (throughFirstDone (streamRecords lib (stream.scans.map Scanned.line))),
          none)) ∧
    ((callOllama lib w prompt log).1.2 = none →
      (callOllama lib w prompt log).1.1 =
        concatResponses (throughFirstDone (streamRecords lib (stream.scans.map Scanned.line)))) := by
  constructor
  · intro hclean
    obtain ⟨he, hs⟩ := hclean
    have h1 := callOllamaLoop_text lib none stream.eofWithData stream.scans ""
      (fun sc hsc => (hs sc hsc).2)
    have h2 := callOllamaLoop_clean lib stream.eofWithData stream.scans "" hs
    unfold callOllama httpPost
    simp only [hpost, he]
    rcases hl : callOllamaLoop lib none stream.eofWithData stream.scans "" with ⟨full, err⟩
    rw [hl] at h1 h2
    simp only at h1 h2
    subst h2
    simp [h1]
  · intro hnone
    have h1 := callOllamaLoop_text_of_no_error lib stream.errEnd stream.eofWithData
      stream.scans ""
    unfold callOllama httpPost at hnone ⊢
    simp only [hpost] at hnone ⊢
    rcases hl : callOllamaLoop lib stream.errEnd stream.eofWithData stream.scans ""
      with ⟨full, _ | err⟩
    · rw [hl] at h1
      have h2 := h1 rfl
      simpa using h2
    · rw [hl] at hnone
      simp at hnone

/-- C3 at the specification's example: the lines with fragments "A", "B"
(final) and "C" aggregate to "AB". -/
theorem callOllama_aggregates_witness :
    (callOllama goLib demoWorld "any prompt" []).1 = ("AB", none) :=
  ((callOllama_aggregates goLib demoWorld "any prompt" [] ⟨abcLines, none, false⟩ rfl).1
    ⟨rfl, by decide⟩).trans (by decide)

/-- The size in bytes of a string of `n` letters `x`. -/
theorem utf8ByteSize_replicate_x (n : Nat) :
    (String.mk (List.replicate n 'x')).utf8ByteSize = n := by
  induction n with
  | zero => rfl
  | succ k ih =>
    have hx : Char.utf8Size 'x' = 1 := by decide
    have hstep : (String.mk (List.replicate (k + 1) 'x')).utf8ByteSize
        = (String.mk (List.replicate k 'x')).utf8ByteSize + Char.utf8Size 'x' := rfl
    rw [hstep, ih, hx]

/-- The line `longLine` takes 65536 bytes. -/
theorem longLine_size : longLine.utf8ByteSize = 65536 := by
  have hx : Char.utf8Size 'x' = 1 := by decide
  have hstep : ∀ l : List Char,
      (String.mk ('x' :: l)).utf8ByteSize = (String.mk l).utf8ByteSize + Char.utf8Size 'x' :=
    fun _ => rfl
  unfold longLine
  rw [hstep, utf8ByteSize_replicate_x, hx]

/-- A line that with its marker takes more bytes than the buffer may hold is
too long for the scanner. -/
theorem tooLong_of_size (eofWithData : Bool) (sc : Scanned)
    (h : sc.line.utf8ByteSize + sc.ending.utf8ByteSize > MaxScanTokenSize) :
    sc.tooLong eofWithData = true := by
  simp only [Scanned.tooLong, decide_eq_true_eq]
  exact Or.inl h

/-- The line `longLine`, followed by a line feed, is too long for the
scanner. -/
theorem longLine_tooLong (eofWithData : Bool) (errNow : Option String) :
    Scanned.tooLong eofWithData ⟨longLine, "\n", errNow⟩ = true := by
  apply tooLong_of_size
  have hnl : ("\n" : String).utf8ByteSize = 1 := by decide
  show longLine.utf8ByteSize + ("\n" : String).utf8ByteSize > MaxScanTokenSize
  rw [longLine_size, hnl]
  decide

/-- A line that starts with the letter `x` does not parse. -/
theorem parsesAsChunk_x (rest : List Char) :
    parsesAsChunk goLib (String.mk ('x' :: rest)) = false := by
  have hs : skipSpace ('x' :: rest) = 'x' :: rest := by
    simp [skipSpace, isSpace]
  have hp : parseValue ((String.mk ('x' :: rest)).length + 1) 0 ('x' :: rest) = none := by
    simp [parseValue, hs, isDigit]
  simp only [parsesAsChunk, goLib, unmarshalValue, hp]

/-- The loop stops at a line too long for the scanner. -/
theorem callOllamaLoop_tooLong (lib : GoLib) (errEnd : Option String) (eofWithData : Bool)
    (sc : Scanned) (after : List Scanned) (full : String)
    (h : sc.tooLong eofWithData = true) :
    callOllamaLoop lib errEnd eofWithData (sc :: after) full
      = (full, some "bufio.Scanner: token too long") := by
  simp [callOllamaLoop, h, ErrTooLong]

/-- The loop on the line with fragment "A", then a line too long for the
scanner, then any lines. -/
theorem callOllamaLoop_A_then_long (long : Scanned) (after : List Scanned)
    (h : long.tooLong false = true) :
    callOllamaLoop goLib none false
      (⟨"\x7b\"response\":\"A\",\"done\":false\x7d", "\n", none⟩ :: long :: after) ""
      = ("A", some "bufio.Scanner: token too long") := by
  have hA : Scanned.tooLong false
      ⟨"\x7b\"response\":\"A\",\"done\":false\x7d", "\n", none⟩ = false := by decide
  have hU : goLib.unmarshalStreamChunk "\x7b\"response\":\"A\",\"done\":false\x7d"
      = Except.ok ⟨"A", false⟩ := by rfl
  have hstep : callOllamaLoop goLib none false
      (⟨"\x7b\"response\":\"A\",\"done\":false\x7d", "\n", none⟩ :: long :: after) ""
      = callOllamaLoop goLib none false (long :: after) ("" ++ "A") := by
    simp only [callOllamaLoop, hA, hU, Bool.false_eq_true, if_false]
  rw [hstep, callOllamaLoop_tooLong goLib none false long after _ h]
  rfl

/-- C4 as stated fails: between the lines with fragments "A" and "B" stands
a line of 65536 letters, which does not parse.  The loop stops at it, and the
result is the text "A" with the error `ErrTooLong`; on the two lines that
parse alone the result is "AB" with no error. -/
theorem callOllamaLoop_long_line_stops :
    parsesAsChunk goLib longLine = false ∧
    callOllamaLoop goLib none false
      [⟨"\x7b\"response\":\"A\",\"done\":false\x7d", "\n", none⟩, ⟨longLine, "\n", none⟩,
        ⟨"\x7b\"response\":\"B\",\"done\":false\x7d", "\n", none⟩] ""
      = ("A", some "bufio.Scanner: token too long") ∧
    callOllamaLoop goLib none false
      [⟨"\x7b\"response\":\"A\",\"done\":false\x7d", "\n", none⟩,
        ⟨"\x7b\"response\":\"B\",\"done\":false\x7d", "\n", none⟩] ""
      = ("AB", none) :=
  ⟨parsesAsChunk_x _, callOllamaLoop_A_then_long _ _ (longLine_tooLong false none), by decide⟩

/-- C4, amended: when every line that does not parse fits the scanner, the
loop gives the same result (text and error) on a sequence of lines as on the
sequence without its lines that do not parse; a line that does not parse and
fits the scanner, wherever it stands, can be dropped without changing the
result; and a line too long for the scanner ends the loop with the text
gathered so far and the error `ErrTooLong`. -/
theorem callOllamaLoop_skips_unparseable (lib : GoLib) (errEnd : Option String)
    (eofWithData : Bool) :
    (∀ (scans : List Scanned) (full : String),
      (∀ sc ∈ scans, parsesAsChunk lib sc.line = false → sc.tooLong eofWithData = false) →
      callOllamaLoop lib errEnd eofWithData scans full =
        callOllamaLoop lib errEnd eofWithData
          (scans.filter (fun sc => parsesAsChunk lib sc.line)) full) ∧
    (∀ (before after : List Scanned) (sc : Scanned) (full : String),
      parsesAsChunk lib sc.line = false → sc.tooLong eofWithData = false →
      callOllamaLoop lib errEnd eofWithData (before ++ sc :: after) full =
        callOllamaLoop lib errEnd eofWithData (before ++ after) full) ∧
    (∀ (sc : Scanned) (after : List Scanned) (full : String),
      sc.tooLong eofWithData = true →
      callOllamaLoop lib errEnd eofWithData (sc :: after) full
        = (full, some "bufio.Scanner: token too long")) := by
  refine ⟨?_, ?_, ?_⟩
  · intro scans
    induction scans with
    | nil => intro full _; rfl
    | cons sc rest ih =>
      intro full h
      have hrest : ∀ s ∈ rest, parsesAsChunk lib s.line = false →
          s.tooLong eofWithData = false :=
        fun s hs => h s (List.mem_cons_of_mem _ hs)
      cases hu : lib.unmarshalStreamChunk sc.line with
      | error e =>
        have hp : parsesAsChunk lib sc.line = false := by simp [parsesAsChunk, hu]
        have hfit := h sc (List.mem_cons_self _ _) hp
        rw [List.filter_cons_of_neg (by simp [hp])]
        simp only [callOllamaLoop, hu, hfit, Bool.false_eq_true, if_false]
        exact ih full hrest
      | ok chunk =>
        have hp : parsesAsChunk lib sc.line = true := by simp [parsesAsChunk, hu]
        rw [List.filter_cons_of_pos (by simp [hp])]
        simp only [callOllamaLoop, hu]
        by_cases hlong : sc.tooLong eofWithData = true
        · simp [hlong]
        · simp only [hlong, if_false]
          by_cases hd : chunk.Done = true
          · simp [hd]
          · simp only [hd, Bool.false_eq_true, if_false]
            exact ih _ hrest
  · intro before
    induction before with
    | nil =>
      intro after sc full hsc hfit
      have hu : ∃ e, lib.unmarshalStreamChunk sc.line = Except.error e := by
        cases hu : lib.unmarshalStreamChunk sc.line with
        | error e => exact ⟨e, rfl⟩
        | ok chunk => simp [parsesAsChunk, hu] at hsc
      obtain ⟨e, hu⟩ := hu
      simp only [List.nil_append, callOllamaLoop, hfit, hu, Bool.false_eq_true, if_false]
    | cons b bs ih =>
      intro after sc full hsc hfit
      simp only [List.cons_append, callOllamaLoop]
      by_cases hlong : b.tooLong eofWithData = true
      · simp [hlong]
      · simp only [hlong, if_false]
        cases hu : lib.unmarshalStreamChunk b.line with
        | error e => exact ih after sc full hsc hfit
        | ok chunk =>
          by_cases hd : chunk.Done = true
          · simp [hd]
          · simp only [hd, Bool.false_eq_true, if_false]
            exact ih after sc _ hsc hfit
  · intro sc after full hlong
    exact callOllamaLoop_tooLong lib errEnd eofWithData sc after full hlong

/-- C4, amended, on a stream whose first, middle and last lines are not
JSON and fit the scanner: the result is that of the two lines that parse. -/
theorem callOllamaLoop_skips_unparseable_witness :
    callOllamaLoop goLib none false
      [⟨"data: ping", "\n", none⟩, ⟨"\x7b\"response\":\"A\",\"done\":false\x7d", "\n", none⟩,
        ⟨"", "\r\n", none⟩, ⟨"\x7b\"response\":\"B\",\"done\":false\x7d", "\n", none⟩,
        ⟨"\x7b\"response\":", "", none⟩] ""
      = ("AB", none) :=
  ((callOllamaLoop_skips_unparseable goLib none false).1 _ "" (by decide)).trans (by decide)

/-! ## C5 -/

/-- C5: for a valid request, a failure of `getLatLon` gives 500 "Failed to
geocode location" with the geocoding request as the only outbound request; a
failure of `fetchWeather` gives 500 "Failed to fetch weather data" with no
request to the generation service; an error of `callOllama`, with or without
partial text, gives 500 "Failed to get AI suggestion", a response that does
not depend on the partial text. -/
theorem suggestHandler_stage_failure (lib : GoLib) (w : World) (body lastPrompt : String)
    (input : UserInput) (hdec : lib.decodeUserInput body = Except.ok input)
    (hvalid : input.Height ≠ "" ∧ input.Location ≠ "" ∧ input.Occasion ≠ "") :
    (∀ lat lon e log, getLatLon lib w input.Location [] = ((lat, lon, some e), log) →
      (suggestHandler lib w body lastPrompt).response
        = ⟨500, "text/plain; charset=utf-8", Payload.text "Failed to geocode location"⟩ ∧
      (suggestHandler lib w body lastPrompt).calls = [Call.get (getLatLonURL input.Location)]) ∧
    (∀ lat lon log temp condition e log2,
      getLatLon lib w input.Location [] = ((lat, lon, none), log) →
      fetchWeather lib w lat lon log = ((temp, condition, some e), log2) →
      (suggestHandler lib w body lastPrompt).response
        = ⟨500, "text/plain; charset=utf-8", Payload.text "Failed to fetch weather data"⟩ ∧
      (suggestHandler lib w body lastPrompt).calls
        = [Call.get (getLatLonURL input.Location), Call.get (fetchWeatherURL lib lat lon)]) ∧
    (∀ lat lon log temp condition log2 partialText e log3,
      getLatLon lib w input.Location [] = ((lat, lon, none), log) →
      fetchWeather lib w lat lon log = ((temp, condition, none), log2) →
      callOllama lib w (buildPrompt lib input.Height input.Occasion condition temp input.Rating)
        log2 = ((partialText, some e), log3) →
      (suggestHandler lib w body lastPrompt).response
        = ⟨500, "text/plain; charset=utf-8", Payload.text "Failed to get AI suggestion"⟩) := by
  have hnot : ¬ (input.Height = "" ∨ input.Location = "" ∨ input.Occasion = "") := by
    rintro (h | h | h)
    · exact hvalid.1 h
    · exact hvalid.2.1 h
    · exact hvalid.2.2 h
  refine ⟨?_, ?_, ?_⟩
  · intro lat lon e log hg
    have hlog := getLatLon_log lib w input.Location []
    rw [hg] at hlog
    simp only [List.nil_append] at hlog
    unfold suggestHandler
    rw [hdec]
    simp only []
    rw [if_neg hnot, hg]
    exact ⟨rfl, hlog⟩
  · intro lat lon log temp condition e log2 hg hf
    have hlog := getLatLon_log lib w input.Location []
    rw [hg] at hlog
    simp only [List.nil_append] at hlog
    have hlog2 := fetchWeather_log lib w lat lon log
    rw [hf] at hlog2
    simp only at hlog2
    unfold suggestHandler
    rw [hdec]
    simp only []
    rw [if_neg hnot, hg]
    simp only []
    rw [hf]
    refine ⟨rfl, ?_⟩
    simp only [hlog2, hlog, List.singleton_append]
  · intro lat lon log temp condition log2 partialText e log3 hg hf hc
    unfold suggestHandler
    rw [hdec]
    simp only []
    rw [if_neg hnot, hg]
    simp only []
    rw [hf]
    simp only []
    rw [hc]
    rfl

/-- C5 at three runs of the same valid request: without network the
geocoding fails; with a geocoder answer that leads to an unknown weather URL
the weather stage fails; and, the specification's scenario, the generation
stream breaks after the fragment "Wear a", which `callOllama` returns beside
the error. -/
theorem suggestHandler_stage_failure_witness :
    ((suggestHandler goLib offlineWorld demoBody "").response
        = ⟨500, "text/plain; charset=utf-8", Payload.text "Failed to geocode location"⟩ ∧
      (suggestHandler goLib offlineWorld demoBody "").calls = [Call.get (getLatLonURL "Paris")]) ∧
    ((suggestHandler goLib hugeLatitudeWorld demoBody "").response
        = ⟨500, "text/plain; charset=utf-8", Payload.text "Failed to fetch weather data"⟩ ∧
      (suggestHandler goLib hugeLatitudeWorld demoBody "").calls
        = [Call.get (getLatLonURL "Paris"),
            Call.get (fetchWeatherURL goLib (Float64.inf false) (ParseFloat "2.3522").1)]) ∧
    (callOllama goLib brokenStreamWorld
        (buildPrompt goLib "180cm" "wedding" "clear" (ParseFloat "21.3").1 5)
        [Call.get (getLatLonURL "Paris"),
          Call.get (fetchWeatherURL goLib (ParseFloat "48.8566").1 (ParseFloat "2.3522").1)]).1
      = ("Wear a", some "unexpected EOF") ∧
    (suggestHandler goLib brokenStreamWorld demoBody "").response
      = ⟨500, "text/plain; charset=utf-8", Payload.text "Failed to get AI suggestion"⟩ :=
  ⟨(suggestHandler_stage_failure goLib offlineWorld demoBody ""
      ⟨"180cm", "Paris", "wedding", 5⟩ (by rfl) (by decide)).1
      Float64.zero Float64.zero "dial tcp: connection refused"
      [Call.get (getLatLonURL "Paris")] (by decide),
    (suggestHandler_stage_failure goLib hugeLatitudeWorld demoBody ""
      ⟨"180cm", "Paris", "wedding", 5⟩ (by rfl) (by decide)).2.1
      (Float64.inf false) (ParseFloat "2.3522").1 [Call.get (getLatLonURL "Paris")]
      Float64.zero "" "no such host"
      [Call.get (getLatLonURL "Paris"),
        Call.get (fetchWeatherURL goLib (Float64.inf false) (ParseFloat "2.3522").1)]
      (by decide!) (by decide!),
    by decide!,
    (suggestHandler_stage_failure goLib brokenStreamWorld demoBody ""
      ⟨"180cm", "Paris", "wedding", 5⟩ (by rfl) (by decide)).2.2
      (ParseFloat "48.8566").1 (ParseFloat "2.3522").1
      [Call.get (getLatLonURL "Paris")]
      (ParseFloat "21.3").1 "clear"
      [Call.get (getLatLonURL "Paris"),
        Call.get (fetchWeatherURL goLib (ParseFloat "48.8566").1 (ParseFloat "2.3522").1)]
      "Wear a" "unexpected EOF"
      [Call.get (getLatLonURL "Paris"),
        Call.get (fetchWeatherURL goLib (ParseFloat "48.8566").1 (ParseFloat "2.3522").1),
        Call.post ollamaURL "application/json"
          [("prompt", buildPrompt goLib "180cm" "wedding" "clear" (ParseFloat "21.3").1 5),
            ("model", "llama3.2")]]
      (by decide!) (by decide!) (by decide!)⟩

/-! ## C6 -/

/-- C6: whenever the request is valid and `getLatLon`, `fetchWeather` and
`callOllama` all succeed, the response is 200 with the JSON object whose
field `suggestion` is the string `callOllama` returned for the prompt built
from the request's height and occasion, the condition "clear" and the
temperature `fetchWeather` returned for the coordinates `getLatLon` returned
for the request's location; and the status is 200 in this case only. -/
theorem suggestHandler_success_iff (lib : GoLib) (w : World) (body lastPrompt : String) :
    (∀ input lat lon log temp log2 suggestion log3,
      lib.decodeUserInput body = Except.ok input →
      (input.Height ≠ "" ∧ input.Location ≠ "" ∧ input.Occasion ≠ "") →
      getLatLon lib w input.Location [] = ((lat, lon, none), log) →
      fetchWeather lib w lat lon log = ((temp, "clear", none), log2) →
      callOllama lib w (buildPrompt lib input.Height input.Occasion "clear" temp input.Rating)
        log2 = ((suggestion, none), log3) →
      (suggestHandler lib w body lastPrompt).response
        = ⟨200, "application/json", Payload.json [("suggestion", suggestion)]⟩) ∧
    ((suggestHandler lib w body lastPrompt).response.status = 200 ↔
      ∃ input lat lon log temp log2 suggestion log3,
        lib.decodeUserInput body = Except.ok input ∧
        (input.Height ≠ "" ∧ input.Location ≠ "" ∧ input.Occasion ≠ "") ∧
        getLatLon lib w input.Location [] = ((lat, lon, none), log) ∧
        fetchWeather lib w lat lon log = ((temp, "clear", none), log2) ∧
        callOllama lib w
          (buildPrompt lib input.Height input.Occasion "clear" temp input.Rating)
          log2 = ((suggestion, none), log3)) := by
  have forward : ∀ input lat lon log temp log2 suggestion log3,
      lib.decodeUserInput body = Except.ok input →
      (input.Height ≠ "" ∧ input.Location ≠ "" ∧ input.Occasion ≠ "") →
      getLatLon lib w input.Location [] = ((lat, lon, none), log) →
      fetchWeather lib w lat lon log = ((temp, "clear", none), log2) →
      callOllama lib w (buildPrompt lib input.Height input.Occasion "clear" temp input.Rating)
        log2 = ((suggestion, none), log3) →
      (suggestHandler lib w body lastPrompt).response
        = ⟨200, "application/json", Payload.json [("suggestion", suggestion)]⟩ := by
    intro input lat lon log temp log2 suggestion log3 hdec hvalid hg hf hc
    have hnot : ¬ (input.Height = "" ∨ input.Location = "" ∨ input.Occasion = "") := by
      rintro (h | h | h)
      · exact hvalid.1 h
      · exact hvalid.2.1 h
      · exact hvalid.2.2 h
    unfold suggestHandler
    rw [hdec]
    simp only []
    rw [if_neg hnot, hg]
    simp only []
    rw [hf]
    simp only []
    rw [hc]
    rfl
  refine ⟨forward, ?_, ?_⟩
  · intro h
    unfold suggestHandler at h
    cases hdec : lib.decodeUserInput body with
    | error e =>
      rw [hdec] at h
      simp [httpError, StatusBadRequest] at h
    | ok input =>
      rw [hdec] at h
      simp only [] at h
      by_cases hmiss : input.Height = "" ∨ input.Location = "" ∨ input.Occasion = ""
      · rw [if_pos hmiss] at h
        simp [httpError, StatusBadRequest] at h
      · rw [if_neg hmiss] at h
        rcases hg : getLatLon lib w input.Location [] with ⟨⟨lat, lon, _ | e⟩, log⟩
        · rw [hg] at h
          simp only [] at h
          rcases hf : fetchWeather lib w lat lon log with ⟨⟨temp, condition, _ | e⟩, log2⟩
          · rw [hf] at h
            simp only [] at h
            have hcond := fetchWeather_condition lib w lat lon temp condition log log2 hf
            subst hcond
            rcases hc : callOllama lib w
                (buildPrompt lib input.Height input.Occasion "clear" temp input.Rating) log2
              with ⟨⟨suggestion, _ | e⟩, log3⟩
            · exact ⟨input, lat, lon, log, temp, log2, suggestion, log3, rfl,
                ⟨fun h1 => hmiss (Or.inl h1), fun h2 => hmiss (Or.inr (Or.inl h2)),
                  fun h3 => hmiss (Or.inr (Or.inr h3))⟩, hg, hf, hc⟩
            · rw [hc] at h
              simp [httpError, StatusInternalServerError] at h
          · rw [hf] at h
            simp [httpError, StatusInternalServerError] at h
        · rw [hg] at h
          simp [httpError, StatusInternalServerError] at h
  · rintro ⟨input, lat, lon, log, temp, log2, suggestion, log3, hdec, hvalid, hg, hf, hc⟩
    rw [forward input lat lon log temp log2 suggestion log3 hdec hvalid hg hf hc]

/-- C6 in a world where every stage succeeds, with the stage results written
out: the suggestion sent back is the aggregated stream text; and without
network the status is not 200. -/
theorem suggestHandler_success_witness :
    (suggestHandler goLib demoWorld demoBody "").response
      = ⟨200, "application/json", Payload.json [("suggestion", "AB")]⟩ ∧
    (suggestHandler goLib offlineWorld demoBody "").response.status ≠ 200 :=
  ⟨(suggestHandler_success_iff goLib demoWorld demoBody "").1
      ⟨"180cm", "Paris", "wedding", 5⟩
      (ParseFloat "48.8566").1 (ParseFloat "2.3522").1
      [Call.get (getLatLonURL "Paris")]
      (ParseFloat "21.3").1
      [Call.get (getLatLonURL "Paris"),
        Call.get (fetchWeatherURL goLib (ParseFloat "48.8566").1 (ParseFloat "2.3522").1)]
      "AB"
      [Call.get (getLatLonURL "Paris"),
        Call.get (fetchWeatherURL goLib (ParseFloat "48.8566").1 (ParseFloat "2.3522").1),
        Call.post ollamaURL "application/json"
          [("prompt", buildPrompt goLib "180cm" "wedding" "clear" (ParseFloat "21.3").1 5),
            ("model", "llama3.2")]]
      (by rfl) (by decide) (by decide!) (by decide!) (by decide!),
    by decide⟩

/-! ## C7 -/

/-- C7 as stated fails: a body made of a valid request followed by text that
is not JSON is not a valid JSON encoding, yet it is decoded, the three
outbound requests are made and the response is 200. -/
theorem suggestHandler_trailing_garbage_accepted :
    jsonValid trailingGarbageBody = false ∧
    (suggestHandler goLib demoWorld trailingGarbageBody "").response
      = ⟨200, "application/json", Payload.json [("suggestion", "AB")]⟩ ∧
    (suggestHandler goLib demoWorld trailingGarbageBody "").calls.length = 3 := by
  refine ⟨by decide, by decide!, by decide!⟩

/-- C7, amended: whenever `Decode` returns an error on the request body, the
response is 400 "Invalid JSON body", no outbound request is made and the
global `lastPrompt` is left as it was. -/
theorem suggestHandler_invalid_json (lib : GoLib) (w : World) (body lastPrompt e : String)
    (hdec : lib.decodeUserInput body = Except.error e) :
    suggestHandler lib w body lastPrompt
      = ⟨⟨400, "text/plain; charset=utf-8", Payload.text "Invalid JSON body"⟩, [], lastPrompt⟩ := by
  unfold suggestHandler
  rw [hdec]
  rfl

/-- C7, amended, at a truncated body and at a body with a wrongly typed
field. -/
theorem suggestHandler_invalid_json_witness :
    suggestHandler goLib demoWorld "\x7b\"height\":\"180cm\",\"location\":" ""
      = ⟨⟨400, "text/plain; charset=utf-8", Payload.text "Invalid JSON body"⟩, [], ""⟩ ∧
    suggestHandler goLib demoWorld
        "\x7b\"height\":180,\"location\":\"Paris\",\"occasion\":\"wedding\"\x7d" ""
      = ⟨⟨400, "text/plain; charset=utf-8", Payload.text "Invalid JSON body"⟩, [], ""⟩ :=
  ⟨suggestHandler_invalid_json goLib demoWorld _ "" "invalid JSON" (by rfl),
    suggestHandler_invalid_json goLib demoWorld _ ""
      "json: cannot unmarshal into Go value of type string" (by rfl)⟩

/-! ## C8 -/

/-- C8: `getLatLon` returns an error exactly when the transport call fails,
the body does not decode as a `GeoResponse`, or the decoded sequence is
empty; on a non-empty sequence it returns no error and the coordinates are
those parsed from the first candidate, whatever the later candidates are. -/
theorem getLatLon_fails_iff (lib : GoLib) (w : World) (city : String) (log : List Call) :
    ((getLatLon lib w city log).1.2.2 ≠ none ↔
      (∃ e, w.get (getLatLonURL city) = Except.error e) ∨
      (∃ body e, w.get (getLatLonURL city) = Except.ok body ∧
        lib.decodeGeoResponse body = Except.error e) ∨
      (∃ body, w.get (getLatLonURL city) = Except.ok body ∧
        lib.decodeGeoResponse body = Except.ok [])) ∧
    (∀ body first later, w.get (getLatLonURL city) = Except.ok body →
      lib.decodeGeoResponse body = Except.ok (first :: later) →
      (getLatLon lib w city log).1
        = ((lib.parseFloat first.Lat).1, (lib.parseFloat first.Lon).1, none)) := by
  constructor
  · unfold getLatLon httpGet
    cases hg : w.get (getLatLonURL city) with
    | error e => simp [hg]
    | ok body =>
      cases hd : lib.decodeGeoResponse body with
      | error e => simp [hg, hd]
      | ok geo => cases geo <;> simp [hg, hd]
  · intro body first later hg hd
    unfold getLatLon httpGet
    simp [hg, hd]

/-- C8 in a world whose geocoder has two candidates for Paris, where the
coordinates are those of the first, and in a world without network, where
the transport error is returned. -/
theorem getLatLon_fails_iff_witness :
    (getLatLon goLib demoWorld "Paris" []).1
      = ((ParseFloat "48.8566").1, (ParseFloat "2.3522").1, none) ∧
    (getLatLon goLib offlineWorld "Paris" []).1.2.2 ≠ none :=
  ⟨(getLatLon_fails_iff goLib demoWorld "Paris" []).2
      "[\x7b\"lat\":\"48.8566\",\"lon\":\"2.3522\"\x7d,\x7b\"lat\":\"33.6609\",\"lon\":\"-95.5555\"\x7d]"
      ⟨"48.8566", "2.3522"⟩ [⟨"33.6609", "-95.5555"⟩] (by rfl) (by rfl),
    (getLatLon_fails_iff goLib offlineWorld "Paris" []).1.mpr
      (Or.inl ⟨"dial tcp: connection refused", rfl⟩)⟩

/-! ## C9 -/

/-- An overflow reported by `packFloat64` comes with the infinity. -/
theorem packFloat64_overflow (neg : Bool) (q : Nat) (e : Int)
    (h : (packFloat64 neg q e).2 = true) : (packFloat64 neg q e).1 = Float64.inf neg := by
  unfold packFloat64 at h ⊢
  split_ifs at h ⊢
  rfl

/-- An overflow reported by `roundToFloat64` comes with the infinity. -/
theorem roundToFloat64_overflow (neg : Bool) (num den : Nat)
    (h : (roundToFloat64 neg num den).2 = true) :
    (roundToFloat64 neg num den).1 = Float64.inf neg := by
  unfold roundToFloat64 at h ⊢
  by_cases h0 : num = 0 ∨ den = 0
  · rw [if_pos h0] at h
    cases h
  · rw [if_neg h0] at h ⊢
    dsimp only at h ⊢
    split_ifs at h ⊢ <;> exact packFloat64_overflow _ _ _ h

/-- A rounded value that comes with an error comes with a range error and is
an infinity. -/
theorem rangeChecked_error (neg : Bool) (num den : Nat) (e : String)
    (h : (rangeChecked (roundToFloat64 neg num den)).2 = some e) :
    e = "value out of range" ∧
      ((rangeChecked (roundToFloat64 neg num den)).1 = Float64.inf false ∨
        (rangeChecked (roundToFloat64 neg num den)).1 = Float64.inf true) := by
  unfold rangeChecked at h ⊢
  by_cases hov : (roundToFloat64 neg num den).2 = true
  · rw [if_pos hov] at h ⊢
    have hv := roundToFloat64_overflow neg num den hov
    refine ⟨(Option.some.inj h).symm, ?_⟩
    simp only [hv]
    cases neg
    · exact Or.inl rfl
    · exact Or.inr rfl
  · rw [if_neg hov] at h
    cases h

/-- An error of `ParseFloat` is a syntax error beside the value 0, or a range
error beside an infinity. -/
theorem ParseFloat_error (s e : String) (h : (ParseFloat s).2 = some e) :
    (e = "invalid syntax" ∧ (ParseFloat s).1 = Float64.zero) ∨
    (e = "value out of range" ∧
      ((ParseFloat s).1 = Float64.inf false ∨ (ParseFloat s).1 = Float64.inf true)) := by
  unfold ParseFloat at h ⊢
  split at h
  · split_ifs at h ⊢
    exact Or.inl ⟨(Option.some.inj h).symm, rfl⟩
  · split at h
    · exact Or.inl ⟨(Option.some.inj h).symm, rfl⟩
    · split_ifs at h ⊢
      · exact Or.inl ⟨(Option.some.inj h).symm, rfl⟩
      · exact Or.inr (rangeChecked_error _ _ _ _ h)
      · exact Or.inr (rangeChecked_error _ _ _ _ h)

/-- C9 as stated fails: the latitude "1e999" does not parse (it is out of
range), `getLatLon` returns no error, and the latitude returned is the
positive infinity, not 0.0. -/
theorem getLatLon_range_error_is_infinity :
    (ParseFloat "1e999").2 = some "value out of range" ∧
    (getLatLon goLib hugeLatitudeWorld "Paris" []).1
      = (Float64.inf false, (ParseFloat "2.3522").1, none) ∧
    Float64.inf false ≠ Float64.zero := by
  refine ⟨by decide!, by decide!, by decide⟩

/-- C9, amended: on a non-empty decoded result sequence `getLatLon` returns
no error, whether or not the coordinates of the first candidate parse; a
coordinate whose string is not a number is returned as 0.0, and one whose
string is a number out of range as an infinity. -/
theorem getLatLon_parse_failure (w : World) (city : String) (log : List Call) (body : String)
    (first : GeoEntry) (later : List GeoEntry)
    (hget : w.get (getLatLonURL city) = Except.ok body)
    (hdec : goLib.decodeGeoResponse body = Except.ok (first :: later)) :
    (getLatLon goLib w city log).1.2.2 = none ∧
    (∀ e, (ParseFloat first.Lat).2 = some e →
      (e = "invalid syntax" ∧ (getLatLon goLib w city log).1.1 = Float64.zero) ∨
      (e = "value out of range" ∧
        ((getLatLon goLib w city log).1.1 = Float64.inf false ∨
          (getLatLon goLib w city log).1.1 = Float64.inf true))) ∧
    (∀ e, (ParseFloat first.Lon).2 = some e →
      (e = "invalid syntax" ∧ (getLatLon goLib w city log).1.2.1 = Float64.zero) ∨
      (e = "value out of range" ∧
        ((getLatLon goLib w city log).1.2.1 = Float64.inf false ∨
          (getLatLon goLib w city log).1.2.1 = Float64.inf true))) := by
  have hres : (getLatLon goLib w city log).1
      = ((ParseFloat first.Lat).1, (ParseFloat first.Lon).1, none) := by
    unfold getLatLon httpGet
    simp only [hget, hdec]
    rfl
  rw [hres]
  exact ⟨rfl, fun e he => ParseFloat_error _ e he, fun e he => ParseFloat_error _ e he⟩

/-- C9, amended, at a geocoder answer whose latitude is the word "north":
the latitude returned is 0.0 and no error is returned. -/
theorem getLatLon_parse_failure_witness :
    (ParseFloat "north").2 = some "invalid syntax" ∧
    (getLatLon goLib wordyLatitudeWorld "Paris" []).1.1 = Float64.zero ∧
    (getLatLon goLib wordyLatitudeWorld "Paris" []).1.2.2 = none :=
  ⟨by decide,
    ((getLatLon_parse_failure wordyLatitudeWorld "Paris" []
        "[\x7b\"lat\":\"north\",\"lon\":\"2.3522\"\x7d]" ⟨"north", "2.3522"⟩ [] (by rfl) (by rfl)).2.1
        "invalid syntax" (by decide)).elim (fun h => h.2) (fun h => absurd h.1 (by decide)),
    (getLatLon_parse_failure wordyLatitudeWorld "Paris" []
        "[\x7b\"lat\":\"north\",\"lon\":\"2.3522\"\x7d]" ⟨"north", "2.3522"⟩ [] (by rfl) (by rfl)).1⟩

/-! ## C10 -/

/-- C10, at failing inputs: the location name is copied into the URL as it
is, so for the name "Trinidad&Tobago" the parameter `q` is "Trinidad" and a
parameter `Tobago` appears, and for the name "Paris#8e" the parameters
`format` and `limit` are lost in the fragment; a name of letters alone gives
the three parameters `q`, `format` and `limit`. -/
theorem getLatLonURL_not_escaped :
    rawQueryParams (getLatLonURL "Trinidad&Tobago")
      = [("q", "Trinidad"), ("Tobago", ""), ("format", "json"), ("limit", "1")] ∧
    rawQueryParams (getLatLonURL "Paris#8e") = [("q", "Paris")] ∧
    rawQueryParams (getLatLonURL "Paris") = [("q", "Paris"), ("format", "json"), ("limit", "1")] := by
  refine ⟨by decide, by decide, by decide⟩


end AiAgentDemo
